import Mathlib

/-!
Shallow embedding of the Sophie-CHESS bot core (src/src/bot/chess_bot.py and
src/src/engine/stockfish_engine.py) together with the parts of the
python-chess library surface the bot calls (chess.Move.from_uci,
chess.Board.push, the board terminal-state predicates).

Python exceptions are modelled with Except: a call that can raise returns
an Except value, and a try/except block is a match on that value.
Evaluations (Python floats) are modelled as exact integers; every claim
only involves integer centipawn values, on which float arithmetic is exact.
-/

set_option autoImplicit false

namespace SophieChess

deriving instance DecidableEq for Except

/-- Python exception classes that the embedded code distinguishes.
ValueError covers chess.InvalidMoveError (its subclass), which is what
the except-ValueError handler in play_game catches. -/
inductive PyErr
  | valueError
  | attributeError
  | indexError
  | otherError
deriving DecidableEq

/-- A move in coordinate (UCI) notation, as built by chess.Move.from_uci:
origin square, destination square, optional promotion piece letter and
optional drop piece letter. Files and ranks are 0-indexed (file 0 = a,
rank 0 = 1). -/
structure UciMove where
  fromFile : Fin 8
  fromRank : Fin 8
  toFile : Fin 8
  toRank : Fin 8
  promotion : Option Char
  drop : Option Char
deriving DecidableEq

/-- The null move chess.Move.null(): both squares 0, no promotion, no drop. -/
def nullMove : UciMove := ⟨0, 0, 0, 0, none, none⟩

/-- File letter of a square name, as looked up in chess.SQUARE_NAMES. -/
def charToFile : Char → Option (Fin 8)
  | 'a' => some 0
  | 'b' => some 1
  | 'c' => some 2
  | 'd' => some 3
  | 'e' => some 4
  | 'f' => some 5
  | 'g' => some 6
  | 'h' => some 7
  | _ => none

/-- Rank digit of a square name, as looked up in chess.SQUARE_NAMES. -/
def charToRank : Char → Option (Fin 8)
  | '1' => some 0
  | '2' => some 1
  | '3' => some 2
  | '4' => some 3
  | '5' => some 4
  | '6' => some 5
  | '7' => some 6
  | '8' => some 7
  | _ => none

/-- Membership of a character in chess.PIECE_SYMBOLS (lowercase piece
letters); the list-index lookup in from_uci raises ValueError for any
other character, uppercase letters included. -/
def isPieceSymbol (c : Char) : Bool :=
  c = 'p' || c = 'n' || c = 'b' || c = 'r' || c = 'q' || c = 'k'

/-- chess.Move.from_uci: the string 0000 is the null move; a 4-character
string with @ in second position is a drop; a 4- or 5-character string is
origin square, destination square and optional promotion letter; equal
origin and destination (outside the null move) and every other shape
raise (InvalidMoveError, a ValueError). -/
def from_uci (s : String) : Except PyErr UciMove :=
  if s = "0000" then .ok nullMove
  else
    match s.toList with
    | [a, b, c, d] =>
      if b = '@' then
        if isPieceSymbol a.toLower then
          match charToFile c, charToRank d with
          | some tf, some tr => .ok ⟨tf, tr, tf, tr, none, some a.toLower⟩
          | _, _ => .error .valueError
        else .error .valueError
      else
        match charToFile a, charToRank b, charToFile c, charToRank d with
        | some ff, some fr, some tf, some tr =>
          if ff = tf ∧ fr = tr then .error .valueError
          else .ok ⟨ff, fr, tf, tr, none, none⟩
        | _, _, _, _ => .error .valueError
    | [a, b, c, d, p] =>
      match charToFile a, charToRank b, charToFile c, charToRank d with
      | some ff, some fr, some tf, some tr =>
        if isPieceSymbol p then
          if ff = tf ∧ fr = tr then .error .valueError
          else .ok ⟨ff, fr, tf, tr, some p, none⟩
        else .error .valueError
      | _, _, _, _ => .error .valueError
    | _ => .error .valueError

/-! ## Move Arbiter: ChessBot._get_best_move (chess_bot.py lines 148-174)

The arbiter is embedded relative to the oracle calls it makes on one
fixed position: the legal-move set of that position, the predictive
oracle calls on model_manager, and the engine calls on self.engine.
Each oracle call is Except-valued so that a raising call is represented.
rand_index models the random state consumed by random.choice. -/

structure ArbiterEnv where
  /-- list(board.legal_moves) of the position the arbiter was invoked on. -/
  legal_moves : List UciMove
  /-- self.model_manager.is_model_ready() (line 152). -/
  is_model_ready : Except PyErr Bool
  /-- await self.model_manager.predict_move(board) (line 153). -/
  predict_move : Except PyErr (Option UciMove)
  /-- await self.engine.evaluate_move(board, move) (lines 156 and 158).
  Line 158 passes the Optional result of get_best_move, hence the
  Option argument. On the shipped StockfishEngine this attribute does
  not exist and the call raises AttributeError. -/
  evaluate_move : Option UciMove → Except PyErr Int
  /-- await self.engine.get_best_move(board, time_limit=t) (lines 157, 166);
  its Python return type is Optional since the engine wrapper returns
  None on an internal engine failure. -/
  engine_get_best_move : Rat → Except PyErr (Option UciMove)
  /-- random state consumed by random.choice in the fallback (line 174). -/
  rand_index : Nat

/-- random.choice(xs): uniform selection from a sequence; raises
IndexError on an empty sequence. The random draw is modelled by
indexing with an arbitrary natural number modulo the length, so that
every element is selected by equally many residues. -/
def randomChoice {α : Type} (xs : List α) (k : Nat) : Except PyErr α :=
  match xs with
  | [] => .error .indexError
  | y :: ys => .ok ((y :: ys).get ⟨k % (ys.length + 1), Nat.mod_lt k (Nat.succ_pos _)⟩)

/-- Body of the try block of _get_best_move (lines 150-168). The Python
test `if model_move and model_move in board.legal_moves` is the match on
the Option plus the membership test: the only falsy chess.Move is the
null move, which is never a member of the legal-move list, so both
conjuncts are captured. The acceptance test on line 161 is the strict
comparison model_eval - engine_eval > -100. -/
def getBestMoveTry (env : ArbiterEnv) : Except PyErr (Option UciMove) :=
  match env.is_model_ready with
  | .error e => .error e
  | .ok false => env.engine_get_best_move 1
  | .ok true =>
    match env.predict_move with
    | .error e => .error e
    | .ok none => env.engine_get_best_move 1
    | .ok (some model_move) =>
      if model_move ∈ env.legal_moves then
        match env.evaluate_move (some model_move) with
        | .error e => .error e
        | .ok model_eval =>
          match env.engine_get_best_move (1/2 : Rat) with
          | .error e => .error e
          | .ok engine_move =>
            match env.evaluate_move engine_move with
            | .error e => .error e
            | .ok engine_eval =>
              if model_eval - engine_eval > -100 then .ok (some model_move)
              else env.engine_get_best_move 1
      else env.engine_get_best_move 1

/-- ChessBot._get_best_move (lines 148-174): the try body, with
except-Exception falling back to random.choice(list(board.legal_moves))
on line 174. The random choice itself is outside any handler, so its
IndexError on an empty legal-move list propagates. -/
def get_best_move (env : ArbiterEnv) : Except PyErr (Option UciMove) :=
  match getBestMoveTry env with
  | .ok r => .ok r
  | .error _ =>
    match randomChoice env.legal_moves env.rand_index with
    | .ok m => .ok (some m)
    | .error e => .error e

/-- StockfishEngine.get_best_move (stockfish_engine.py lines 33-40):
wraps self.engine.play in a try block and returns None when the
underlying engine call raises; it never raises itself. The underlying
engine behaviour is the play parameter. -/
def StockfishEngine_get_best_move
    (play : Rat → Except PyErr (Option UciMove)) (time_limit : Rat) :
    Except PyErr (Option UciMove) :=
  match play time_limit with
  | .ok r => .ok r
  | .error _ => .ok none

/-- The shipped StockfishEngine class (stockfish_engine.py lines 15-55)
defines no evaluate_move method, so the attribute accesses on
chess_bot.py lines 156 and 158 raise AttributeError against it. -/
def StockfishEngine_evaluate_move : Option UciMove → Except PyErr Int :=
  fun _ => .error .attributeError

/-! ## Session result: ChessBot._get_game_result (chess_bot.py lines 205-217)

The board argument is observed only through board.turn and the five
terminal predicates the method calls, so it is embedded as a record of
those observations. -/

/-- chess.WHITE / chess.BLACK. -/
inductive PColor
  | white
  | black
deriving DecidableEq

/-- The observations _get_game_result makes of a chess.Board: whose turn
it is and the values of the five terminal predicates. On a real board
at most one of is_checkmate and is_stalemate holds. -/
structure BoardFlags where
  turn : PColor
  is_checkmate : Bool
  is_stalemate : Bool
  is_insufficient_material : Bool
  is_seventyfive_moves : Bool
  is_fivefold_repetition : Bool
deriving DecidableEq

/-- ChessBot._get_game_result (lines 205-217): on checkmate, win when
the side to move (the mated side) is the opposite of our color, loss
otherwise; draw on stalemate, insufficient material, the 75-move rule
or fivefold repetition; unknown otherwise. our_color is the session
color string, either the string white or the string black. -/
def get_game_result (board : BoardFlags) (our_color : String) : String :=
  if board.is_checkmate then
    if (board.turn = PColor.white ∧ our_color = "black") ∨
       (board.turn = PColor.black ∧ our_color = "white") then "win"
    else "loss"
  else if board.is_stalemate || board.is_insufficient_material ||
          board.is_seventyfive_moves || board.is_fivefold_repetition then "draw"
  else "unknown"

/-! ## Opponent-move handling: play_game (chess_bot.py lines 113-129)

The local position is observed here only through its move stack, so it
is embedded as the list of moves pushed so far. chess.Board.push does
not check the pushed move for legality (a documented warning in
python-chess): for any move whose origin square is occupied it simply
applies the move, so the push on line 119 is modelled as appending to
the move stack. The except-ValueError handler around the block catches
exactly the parse failures of chess.Move.from_uci. -/

/-- Outcome of one opponent-turn iteration of the play_game loop. -/
inductive OppTurnOutcome
  | applied (stack : List UciMove)
  | terminatedUnknown (stack : List UciMove)
  | noMove (stack : List UciMove)
deriving DecidableEq

/-- One opponent-turn iteration (lines 115-129): when
wait_for_opponent_move returns None the iteration does nothing; when it
returns a string, a parse failure of chess.Move.from_uci raises
ValueError, caught on line 127, and the break on line 129 exits the
game loop with the board unchanged (the result is then computed on that
board); a successful parse is pushed onto the board with no legality
check and play continues. -/
def opponent_turn_step (stack : List UciMove) (opponent_move : Option String) :
    OppTurnOutcome :=
  match opponent_move with
  | none => .noMove stack
  | some s =>
    match from_uci s with
    | .ok m => .applied (stack ++ [m])
    | .error _ => .terminatedUnknown stack

/-- The 20 legal moves of the standard initial chess position in
coordinate notation: the sixteen single and double pawn advances and
the four knight moves. The repository delegates legal-move generation
to python-chess, so this position-specific list is fixed reference data
used to exhibit concrete legality facts about the initial position. -/
def startposLegalMoves : List UciMove :=
  [ ⟨0, 1, 0, 2, none, none⟩, ⟨0, 1, 0, 3, none, none⟩,
    ⟨1, 1, 1, 2, none, none⟩, ⟨1, 1, 1, 3, none, none⟩,
    ⟨2, 1, 2, 2, none, none⟩, ⟨2, 1, 2, 3, none, none⟩,
    ⟨3, 1, 3, 2, none, none⟩, ⟨3, 1, 3, 3, none, none⟩,
    ⟨4, 1, 4, 2, none, none⟩, ⟨4, 1, 4, 3, none, none⟩,
    ⟨5, 1, 5, 2, none, none⟩, ⟨5, 1, 5, 3, none, none⟩,
    ⟨6, 1, 6, 2, none, none⟩, ⟨6, 1, 6, 3, none, none⟩,
    ⟨7, 1, 7, 2, none, none⟩, ⟨7, 1, 7, 3, none, none⟩,
    ⟨1, 0, 0, 2, none, none⟩, ⟨1, 0, 2, 2, none, none⟩,
    ⟨6, 0, 5, 2, none, none⟩, ⟨6, 0, 7, 2, none, none⟩ ]

/-! ## Matchmaking loop: ChessBot.start_playing (chess_bot.py lines 51-67) -/

/-- Observable actions of one iteration of the start_playing loop:
the find_game call, playing a found game, and the asyncio.sleep
suspensions with their duration in seconds. -/
inductive LoopEvent
  | findGame
  | playGame (g : Nat)
  | sleep (seconds : Nat)
deriving DecidableEq

/-- One iteration of the while-True loop of start_playing (lines 55-67),
as the sequence of actions it performs. find_game yields either an
assignment (game ids are abstracted to naturals), no assignment, or an
escaping error; play_game may also let an error escape. No assignment
leads to asyncio.sleep(10) on line 63; an error caught by the
except-Exception handler leads to asyncio.sleep(30) on line 67. -/
def start_playing_iter (find_game : Except PyErr (Option Nat))
    (play_game : Nat → Except PyErr Unit) : List LoopEvent :=
  match find_game with
  | .ok (some g) =>
    match play_game g with
    | .ok _ => [.findGame, .playGame g]
    | .error _ => [.findGame, .playGame g, .sleep 30]
  | .ok none => [.findGame, .sleep 10]
  | .error _ => [.findGame, .sleep 30]

/-! ## Statistics: _process_finished_game, get_win_rate
(chess_bot.py lines 176-203 and 257-261) -/

/-- The four in-memory counters of the bot (chess_bot.py lines 33-36). -/
structure BotStats where
  games_played : Nat
  wins : Nat
  losses : Nat
  draws : Nat
deriving DecidableEq

/-- The counter updates of _process_finished_game (lines 181-187):
games_played is incremented, then exactly one of wins, losses or draws
according to the result string, every result other than win or loss
counting as a draw. -/
def update_stats (st : BotStats) (result : String) : BotStats :=
  let st1 := { st with games_played := st.games_played + 1 }
  if result = "win" then { st1 with wins := st1.wins + 1 }
  else if result = "loss" then { st1 with losses := st1.losses + 1 }
  else { st1 with draws := st1.draws + 1 }

/-- ChessBot._process_finished_game (lines 176-203): the counters are
mutated first (lines 181-187), then the game is saved (line 190), then
analyzed (line 193), then every 10th game the model is updated (lines
196-198). The saved, analysis and model-update outcomes are the
Except-valued collaborator calls; a raising call aborts the remainder
and propagates, but the already-mutated counters persist on the Python
object, so the function returns the updated counters together with the
escaping error, if any. -/
def process_finished_game (st : BotStats) (result : String)
    (save_game : Except PyErr Unit) (analyze_game : Except PyErr Nat)
    (update_model : Except PyErr Unit) : BotStats × Option PyErr :=
  let st1 := update_stats st result
  match save_game with
  | .error e => (st1, some e)
  | .ok _ =>
    match analyze_game with
    | .error e => (st1, some e)
    | .ok _ =>
      if st1.games_played % 10 = 0 then
        match update_model with
        | .error e => (st1, some e)
        | .ok _ => (st1, none)
      else (st1, none)

/-- The tail of play_game (lines 133-146): the call to
_process_finished_game happens inside the try block whose
except-Exception handler on lines 145-146 only logs; an error escaping
the post-game pipeline is therefore absorbed, the process continues,
and the counters keep the values already written. -/
def play_game_finish (st : BotStats) (result : String)
    (save_game : Except PyErr Unit) (analyze_game : Except PyErr Nat)
    (update_model : Except PyErr Unit) : BotStats :=
  (process_finished_game st result save_game analyze_game update_model).1

/-- ChessBot.get_win_rate (lines 257-261): 0.0 when no games were
played, wins divided by games_played otherwise. Python float division
is modelled by exact rational division. -/
def get_win_rate (st : BotStats) : Rat :=
  if st.games_played = 0 then 0
  else (st.wins : Rat) / (st.games_played : Rat)

/-! ## Concrete moves used in the concrete scenarios -/

/-- The move e2e4. -/
def mvE2E4 : UciMove := ⟨4, 1, 4, 3, none, none⟩

/-- The move d2d4. -/
def mvD2D4 : UciMove := ⟨3, 1, 3, 3, none, none⟩

/-- The move a2a3. -/
def mvA2A3 : UciMove := ⟨0, 1, 0, 2, none, none⟩

/-- The move a2a5, a pawn advance of three squares: syntactically valid
coordinate notation, but not a legal move of the initial position. -/
def mvA2A5 : UciMove := ⟨0, 1, 0, 4, none, none⟩

/-! ## Helper lemmas -/

/-- random.choice on a nonempty list returns a member of the list. -/
theorem randomChoice_mem {α : Type} (xs : List α) (k : Nat) (h : xs ≠ []) :
    ∃ m, randomChoice xs k = .ok m ∧ m ∈ xs := by
  cases xs with
  | nil => exact absurd rfl h
  | cons y ys => exact ⟨_, rfl, List.get_mem _ _ _⟩

/-- random.choice with a random draw below the length returns exactly
the element at that index. -/
theorem randomChoice_get {α : Type} (xs : List α) (i : Fin xs.length) :
    randomChoice xs i.1 = .ok (xs.get i) := by
  cases xs with
  | nil => exact absurd i.isLt (by simp)
  | cons y ys =>
    unfold randomChoice
    refine congrArg Except.ok (congrArg _ ?_)
    exact Fin.ext (Nat.mod_eq_of_lt i.isLt)

/-- A successful result of the try body of _get_best_move is either the
model candidate, which was checked for membership in the legal-move
list, or the verbatim answer of the engine call at time budget 1.0. -/
theorem getBestMoveTry_cases (env : ArbiterEnv) (r : Option UciMove)
    (h : getBestMoveTry env = .ok r) :
    (∃ m, r = some m ∧ m ∈ env.legal_moves) ∨ env.engine_get_best_move 1 = .ok r := by
  unfold getBestMoveTry at h
  split at h
  · cases h
  · exact Or.inr h
  · split at h
    · cases h
    · exact Or.inr h
    · rename_i model_move heqp
      split at h
      · rename_i hmem
        split at h
        · cases h
        · split at h
          · cases h
          · split at h
            · cases h
            · split at h
              · cases h
                exact Or.inl ⟨model_move, rfl, hmem⟩
              · exact Or.inr h
      · exact Or.inr h

/-- When the predictive oracle reports itself not ready, the try body of
_get_best_move is exactly the engine call at time budget 1.0. -/
theorem getBestMoveTry_not_ready (env : ArbiterEnv)
    (h : env.is_model_ready = .ok false) :
    getBestMoveTry env = env.engine_get_best_move 1 := by
  unfold getBestMoveTry
  rw [h]

/-- When the predict call raises and every engine best-move call raises,
the try body of _get_best_move raises. -/
theorem getBestMoveTry_error (env : ArbiterEnv) (eP eE : PyErr)
    (hpred : env.predict_move = .error eP)
    (heng : ∀ t, env.engine_get_best_move t = .error eE) :
    ∃ e, getBestMoveTry env = .error e := by
  unfold getBestMoveTry
  cases hr : env.is_model_ready with
  | error e => exact ⟨e, rfl⟩
  | ok b =>
    cases b with
    | false => exact ⟨eE, heng 1⟩
    | true =>
      rw [hpred]
      exact ⟨eP, rfl⟩

/-- The counters returned by _process_finished_game are the updated
counters, whatever the collaborator calls do afterwards. -/
theorem process_finished_game_fst (st : BotStats) (result : String)
    (save_game : Except PyErr Unit) (analyze_game : Except PyErr Nat)
    (update_model : Except PyErr Unit) :
    (process_finished_game st result save_game analyze_game update_model).1
      = update_stats st result := by
  cases save_game with
  | error e => rfl
  | ok u =>
    cases analyze_game with
    | error e => rfl
    | ok n =>
      by_cases h10 : (update_stats st result).games_played % 10 = 0
      · cases update_model with
        | error e => simp [process_finished_game, h10]
        | ok v => simp [process_finished_game, h10]
      · simp [process_finished_game, h10]

/-- Case analysis of the counter update on the result string. -/
theorem update_stats_cases (st : BotStats) (result : String) :
    (result = "win" →
      update_stats st result = ⟨st.games_played + 1, st.wins + 1, st.losses, st.draws⟩)
    ∧ (result = "loss" →
      update_stats st result = ⟨st.games_played + 1, st.wins, st.losses + 1, st.draws⟩)
    ∧ (result ≠ "win" → result ≠ "loss" →
      update_stats st result = ⟨st.games_played + 1, st.wins, st.losses, st.draws + 1⟩) := by
  refine ⟨?_, ?_, ?_⟩
  · intro h; subst h; rfl
  · intro h; subst h; rfl
  · intro h1 h2; simp [update_stats, h1, h2]

/-! ## C1 -/

/-- C1 (amended). On a non-terminal position (nonempty legal-move
list), _get_best_move always succeeds and returns a member of the
legal-move list, provided every answer the search oracle returns at the
fallback time budget 1.0 is itself some legal move or the call raises.
The arbiter performs no legality check on the engine answer itself: the
unamended claim fails because a None or illegal engine answer is
returned verbatim (see the counterexample). -/
theorem c1_arbiter_legal (env : ArbiterEnv)
    (hne : env.legal_moves ≠ [])
    (heng : ∀ r, env.engine_get_best_move 1 = .ok r →
      ∃ m, r = some m ∧ m ∈ env.legal_moves) :
    ∃ m, get_best_move env = .ok (some m) ∧ m ∈ env.legal_moves := by
  cases htry : getBestMoveTry env with
  | error e =>
    obtain ⟨m, hm, hmem⟩ := randomChoice_mem env.legal_moves env.rand_index hne
    refine ⟨m, ?_, hmem⟩
    unfold get_best_move
    rw [htry, hm]
  | ok r =>
    have hr : ∃ m, r = some m ∧ m ∈ env.legal_moves := by
      cases getBestMoveTry_cases env r htry with
      | inl h => exact h
      | inr h => exact heng r h
    obtain ⟨m, rfl, hmem⟩ := hr
    refine ⟨m, ?_, hmem⟩
    unfold get_best_move
    rw [htry]

/-- C1 counterexample. A concrete invocation on a position whose only
legal move is e2e4, with the predictive oracle unavailable and the
search oracle answering a2a3: the arbiter returns a2a3 verbatim, which
is not a member of the legal-move list, refuting the unamended claim
that every returned move is legal. -/
def envC1 : ArbiterEnv :=
  { legal_moves := [mvE2E4]
    is_model_ready := .ok false
    predict_move := .ok none
    evaluate_move := StockfishEngine_evaluate_move
    engine_get_best_move := fun _ => .ok (some mvA2A3)
    rand_index := 0 }

/-- C1 counterexample theorem: the arbiter passes the engine answer
through without a legality check. -/
theorem c1_counterexample :
    get_best_move envC1 = .ok (some mvA2A3) ∧ mvA2A3 ∉ envC1.legal_moves := by
  decide

/-- Environment for the C1 witness: engine answers the unique legal
move. -/
def envC1w : ArbiterEnv :=
  { legal_moves := [mvE2E4]
    is_model_ready := .ok false
    predict_move := .ok none
    evaluate_move := StockfishEngine_evaluate_move
    engine_get_best_move := fun _ => .ok (some mvE2E4)
    rand_index := 0 }

/-- C1 witness: the amended theorem applied to a concrete environment. -/
theorem c1_arbiter_legal_witness : get_best_move envC1w = .ok (some mvE2E4) := by
  obtain ⟨m, hm, hmem⟩ := c1_arbiter_legal envC1w (by decide)
    (fun r h => ⟨mvE2E4, by cases h; exact ⟨rfl, by decide⟩⟩)
  have hme : m = mvE2E4 := by simpa [envC1w] using hmem
  rw [hme] at hm
  exact hm

/-! ## C2 -/

/-- C2 (amended). When every oracle call the arbiter makes raises (the
predict call throws and the engine best-move call throws at every time
budget), _get_best_move returns a uniformly random member of the
nonempty legal-move list: the returned move is the element indexed by
the random draw modulo the length, and every index is realized by the
corresponding draw. The unamended claim also covers oracles that fail
without throwing; it fails there, because the shipped
StockfishEngine.get_best_move swallows engine failures and returns
None, which the arbiter passes through instead of drawing a random
legal move (see the counterexample). -/
theorem c2_random_fallback (env : ArbiterEnv) (eP eE : PyErr)
    (hpred : env.predict_move = .error eP)
    (heng : ∀ t, env.engine_get_best_move t = .error eE)
    (hne : env.legal_moves ≠ []) :
    (∃ m, get_best_move env = .ok (some m) ∧ m ∈ env.legal_moves)
    ∧ ∀ i : Fin env.legal_moves.length,
        get_best_move { env with rand_index := i.1 }
          = .ok (some (env.legal_moves.get i)) := by
  constructor
  · obtain ⟨e, he⟩ := getBestMoveTry_error env eP eE hpred heng
    obtain ⟨m, hm, hmem⟩ := randomChoice_mem env.legal_moves env.rand_index hne
    refine ⟨m, ?_, hmem⟩
    unfold get_best_move
    rw [he, hm]
  · intro i
    obtain ⟨e, he⟩ := getBestMoveTry_error { env with rand_index := i.1 } eP eE hpred heng
    unfold get_best_move
    rw [he, randomChoice_get env.legal_moves i]

/-- C2 counterexample. Both oracles fail on every call without a raise
reaching the arbiter: the model is missing (not ready, predicting
None), and the search oracle is the shipped StockfishEngine whose
underlying engine raises on every play call, so get_best_move returns
None. The arbiter then returns None and not a random legal move. -/
def envC2 : ArbiterEnv :=
  { legal_moves := [mvE2E4]
    is_model_ready := .ok false
    predict_move := .ok none
    evaluate_move := StockfishEngine_evaluate_move
    engine_get_best_move := StockfishEngine_get_best_move (fun _ => .error .otherError)
    rand_index := 0 }

/-- C2 counterexample theorem: with both oracles failing on every call,
the arbiter returns None, which is not a member of the legal-move set,
refuting the unamended claim. -/
theorem c2_counterexample :
    get_best_move envC2 = .ok none
    ∧ ∀ m ∈ envC2.legal_moves, get_best_move envC2 ≠ .ok (some m) := by
  decide

/-- Environment for the C2 witness: every oracle call raises, two legal
moves, random draw 3. -/
def envC2w : ArbiterEnv :=
  { legal_moves := [mvE2E4, mvD2D4]
    is_model_ready := .ok true
    predict_move := .error .otherError
    evaluate_move := fun _ => .error .otherError
    engine_get_best_move := fun _ => .error .otherError
    rand_index := 3 }

/-- C2 witness: the amended theorem applied to a concrete environment,
drawing index 1 and obtaining the second legal move. -/
theorem c2_random_fallback_witness :
    get_best_move { envC2w with rand_index := 1 } = .ok (some mvD2D4) :=
  (c2_random_fallback envC2w .otherError .otherError rfl (fun _ => rfl)
    (by decide)).2 ⟨1, by decide⟩

/-! ## C3 -/

/-- C3 (amended). When the predictive oracle is ready and proposes a
legal candidate, and the evaluation calls succeed with candidate
evaluation a and best-move evaluation b, the arbiter accepts the
candidate if and only if a - b is strictly greater than -100: a
candidate whose evaluation is exactly 100 below the best-move
evaluation, i.e. exactly at the tolerance threshold, is rejected (the
comparison on line 161 is strict), and one unit above the threshold it
is accepted; on rejection the arbiter returns the engine answer at time
budget 1.0. The unamended claim asserts acceptance exactly at the
threshold, which the counterexample refutes. Note also that against
the shipped StockfishEngine this code path always raises, since that
class defines no evaluate_move attribute. -/
theorem c3_tolerance_strict (env : ArbiterEnv) (m bm : UciMove)
    (r : Option UciMove) (a b : Int)
    (hready : env.is_model_ready = .ok true)
    (hpred : env.predict_move = .ok (some m))
    (hmem : m ∈ env.legal_moves)
    (heva : env.evaluate_move (some m) = .ok a)
    (hbm : env.engine_get_best_move (1/2 : Rat) = .ok (some bm))
    (hevb : env.evaluate_move (some bm) = .ok b)
    (heng1 : env.engine_get_best_move 1 = .ok r) :
    (a - b > -100 → get_best_move env = .ok (some m))
    ∧ (a - b ≤ -100 → get_best_move env = .ok r) := by
  have hbm2 : env.engine_get_best_move (2⁻¹ : Rat) = Except.ok (some bm) := by
    rw [← one_div]; exact hbm
  constructor
  · intro hgt
    have hgt2 : b < 100 + a := by omega
    unfold get_best_move getBestMoveTry
    simp [hready, hpred, hmem, heva, hbm2, hevb, hgt2]
  · intro hle
    have hngt2 : ¬ (b < 100 + a) := by omega
    unfold get_best_move getBestMoveTry
    simp [hready, hpred, hmem, heva, hbm2, hevb, hngt2, heng1]

/-- C3 counterexample environment: the predictive oracle proposes the
legal candidate e2e4 with evaluation 0; the search oracle answers d2d4
at every budget, and the best-move evaluation is 100, so the candidate
is exactly at the tolerance threshold (100 centipawn-equivalents
worse). -/
def envC3 : ArbiterEnv :=
  { legal_moves := [mvE2E4, mvD2D4]
    is_model_ready := .ok true
    predict_move := .ok (some mvE2E4)
    evaluate_move := fun om =>
      match om with
      | some mv => if mv = mvE2E4 then .ok 0 else .ok 100
      | none => .error .attributeError
    engine_get_best_move := fun _ => .ok (some mvD2D4)
    rand_index := 0 }

/-- C3 counterexample theorem: a candidate exactly at the tolerance
threshold is rejected, the arbiter returning the engine move instead of
the candidate, against the unamended claim that it is accepted. -/
theorem c3_counterexample :
    get_best_move envC3 = .ok (some mvD2D4) ∧ mvD2D4 ≠ mvE2E4 := by
  decide

/-- Environment for the C3 witness: as envC3 but with candidate
evaluation 1, one unit above the threshold. -/
def envC3w : ArbiterEnv :=
  { legal_moves := [mvE2E4, mvD2D4]
    is_model_ready := .ok true
    predict_move := .ok (some mvE2E4)
    evaluate_move := fun om =>
      match om with
      | some mv => if mv = mvE2E4 then .ok 1 else .ok 100
      | none => .error .attributeError
    engine_get_best_move := fun _ => .ok (some mvD2D4)
    rand_index := 0 }

/-- C3 witness: the amended theorem applied to a concrete environment
one unit above the threshold, where the candidate is accepted. -/
theorem c3_tolerance_strict_witness : get_best_move envC3w = .ok (some mvE2E4) :=
  (c3_tolerance_strict envC3w mvE2E4 mvD2D4 (some mvD2D4) 1 100 rfl rfl
    (by decide) (by decide) rfl (by decide) rfl).1 (by decide)

/-! ## C4 -/

/-- C4. The result computation of _get_game_result: on checkmate with
white to move, assigned color white gives loss and assigned color black
gives win; symmetrically with black to move; without checkmate, any of
stalemate, insufficient material, the 75-move rule or fivefold
repetition gives draw for every color; with no terminal flag set the
result is unknown for every color. -/
theorem c4_result_mapping (board : BoardFlags) :
    (board.is_checkmate = true → board.turn = PColor.white →
      get_game_result board "white" = "loss" ∧ get_game_result board "black" = "win")
    ∧ (board.is_checkmate = true → board.turn = PColor.black →
      get_game_result board "black" = "loss" ∧ get_game_result board "white" = "win")
    ∧ (board.is_checkmate = false →
      (board.is_stalemate = true ∨ board.is_insufficient_material = true ∨
       board.is_seventyfive_moves = true ∨ board.is_fivefold_repetition = true) →
      ∀ c, get_game_result board c = "draw")
    ∧ (board.is_checkmate = false → board.is_stalemate = false →
      board.is_insufficient_material = false → board.is_seventyfive_moves = false →
      board.is_fivefold_repetition = false →
      ∀ c, get_game_result board c = "unknown") := by
  obtain ⟨t, cm, s, im, sm, fr⟩ := board
  refine ⟨?_, ?_, ?_, ?_⟩
  · intro h1 h2
    subst h1; subst h2
    exact ⟨rfl, rfl⟩
  · intro h1 h2
    subst h1; subst h2
    exact ⟨rfl, rfl⟩
  · intro h1 hdis c
    subst h1
    have hcond : (s || im || sm || fr) = true := by
      rcases hdis with h | h | h | h <;> simp_all
    simp [get_game_result, hcond]
  · intro h1 h2 h3 h4 h5 c
    subst h1; subst h2; subst h3; subst h4; subst h5
    rfl

/-- C4 witness: the mapping applied to a concrete mated board, white to
move and mated. -/
theorem c4_result_mapping_witness :
    get_game_result ⟨PColor.white, true, false, false, false, false⟩ "white" = "loss"
    ∧ get_game_result ⟨PColor.white, true, false, false, false, false⟩ "black" = "win" :=
  (c4_result_mapping ⟨PColor.white, true, false, false, false, false⟩).1 rfl rfl

/-! ## C5 -/

/-- C5 (amended). An opponent move string that fails coordinate (UCI)
parsing raises ValueError, is caught, and the loop terminates at once
with the move not applied (the move stack unchanged); the result then
computed on the unchanged, non-terminal board is unknown. A parseable
but illegal move, however, is not checked for legality at all: it is
pushed onto the position and the session continues, so the unamended
claim fails for illegal-but-parseable moves (see the counterexample). -/
theorem c5_unparseable_terminates (stack : List UciMove) (s : String) (e : PyErr)
    (hparse : from_uci s = .error e) (board : BoardFlags)
    (hcm : board.is_checkmate = false) (hst : board.is_stalemate = false)
    (him : board.is_insufficient_material = false)
    (hsm : board.is_seventyfive_moves = false)
    (hfr : board.is_fivefold_repetition = false) :
    opponent_turn_step stack (some s) = .terminatedUnknown stack
    ∧ ∀ c, get_game_result board c = "unknown" := by
  constructor
  · simp [opponent_turn_step, hparse]
  · intro c
    simp [get_game_result, hcm, hst, him, hsm, hfr]

/-- C5 counterexample: from the initial position the opponent sends
a2a5, which parses fine in coordinate notation but is not one of the 20
legal moves of that position; the session does not terminate and the
illegal move is applied to the local position. -/
theorem c5_counterexample :
    opponent_turn_step [] (some "a2a5") = .applied [mvA2A5]
    ∧ mvA2A5 ∉ startposLegalMoves
    ∧ opponent_turn_step [] (some "a2a5") ≠ .terminatedUnknown [] := by
  decide

/-- C5 witness: the amended theorem applied to the concrete unparseable
string xx on a mid-game, non-terminal board. -/
theorem c5_unparseable_terminates_witness :
    opponent_turn_step [mvE2E4] (some "xx") = .terminatedUnknown [mvE2E4]
    ∧ ∀ c, get_game_result ⟨PColor.black, false, false, false, false, false⟩ c = "unknown" :=
  c5_unparseable_terminates [mvE2E4] "xx" .valueError (by decide)
    ⟨PColor.black, false, false, false, false, false⟩ rfl rfl rfl rfl rfl

/-! ## C6 -/

/-- C6. Whenever the predictive oracle reports itself not ready, the
arbiter returns exactly the answer reported by the search oracle
invoked at the longer 1.0 time budget, verbatim. -/
theorem c6_engine_only_verbatim (env : ArbiterEnv) (r : Option UciMove)
    (hready : env.is_model_ready = .ok false)
    (heng : env.engine_get_best_move 1 = .ok r) :
    get_best_move env = .ok r := by
  unfold get_best_move
  rw [getBestMoveTry_not_ready env hready, heng]

/-- Environment for the C6 witness: model not ready, engine reporting
e2e4 at every budget. -/
def envC6w : ArbiterEnv :=
  { legal_moves := [mvE2E4, mvD2D4]
    is_model_ready := .ok false
    predict_move := .ok none
    evaluate_move := StockfishEngine_evaluate_move
    engine_get_best_move := fun _ => .ok (some mvE2E4)
    rand_index := 0 }

/-- C6 witness: the theorem applied to a concrete engine-only
environment. -/
theorem c6_engine_only_verbatim_witness : get_best_move envC6w = .ok (some mvE2E4) :=
  c6_engine_only_verbatim envC6w (some mvE2E4) rfl rfl

/-! ## C7 -/

/-- C7. One iteration of the matchmaking loop: when find_game yields no
assignment the iteration ends with the 10-second idle sleep; when an
error escapes find_game or play_game the iteration ends with the
30-second backoff sleep; an iteration with no sleep at all is one in
which a game was found and played to completion. -/
theorem c7_loop_backoff (find_game : Except PyErr (Option Nat))
    (play_game : Nat → Except PyErr Unit) :
    (find_game = .ok none →
      start_playing_iter find_game play_game = [.findGame, .sleep 10])
    ∧ (∀ e, find_game = .error e →
      start_playing_iter find_game play_game = [.findGame, .sleep 30])
    ∧ (∀ g e, find_game = .ok (some g) → play_game g = .error e →
      start_playing_iter find_game play_game = [.findGame, .playGame g, .sleep 30])
    ∧ (∀ g, find_game = .ok (some g) → play_game g = .ok () →
      start_playing_iter find_game play_game = [.findGame, .playGame g])
    ∧ ((∀ n, LoopEvent.sleep n ∉ start_playing_iter find_game play_game) →
      ∃ g, LoopEvent.playGame g ∈ start_playing_iter find_game play_game
        ∧ play_game g = .ok ()) := by
  refine ⟨?_, ?_, ?_, ?_, ?_⟩
  · intro h; subst h; rfl
  · intro e h; subst h; rfl
  · intro g e h hp
    subst h
    simp [start_playing_iter, hp]
  · intro g h hp
    subst h
    simp [start_playing_iter, hp]
  · intro hns
    cases hf : find_game with
    | error e =>
      exact absurd (by simp [start_playing_iter, hf]) (hns 30)
    | ok og =>
      cases og with
      | none => exact absurd (by simp [start_playing_iter, hf]) (hns 10)
      | some g =>
        cases hp : play_game g with
        | error e =>
          exact absurd (by simp [start_playing_iter, hf, hp]) (hns 30)
        | ok u =>
          cases u
          exact ⟨g, by simp [start_playing_iter, hf, hp], hp⟩

/-- C7 witness: the theorem applied to an iteration that finds no
assignment. -/
theorem c7_loop_backoff_witness :
    start_playing_iter (.ok none) (fun _ => .ok ()) = [.findGame, .sleep 10] :=
  (c7_loop_backoff (.ok none) (fun _ => .ok ())).1 rfl

/-! ## C8 -/

/-- C8. When the persistence save throws after the in-memory counters
were updated, _process_finished_game still ends with the updated
counters (no rollback) and surfaces the error; the play_game handler
absorbs the error instead of crashing, keeping the updated counters;
and whatever any later post-game step does, the counters keep their
updated values. -/
theorem c8_no_rollback (st : BotStats) (result : String) (e : PyErr)
    (analyze_game : Except PyErr Nat) (update_model : Except PyErr Unit) :
    (process_finished_game st result (.error e) analyze_game update_model).1
      = update_stats st result
    ∧ (process_finished_game st result (.error e) analyze_game update_model).2
      = some e
    ∧ play_game_finish st result (.error e) analyze_game update_model
      = update_stats st result
    ∧ ∀ save_game,
      (process_finished_game st result save_game analyze_game update_model).1
        = update_stats st result :=
  ⟨process_finished_game_fst st result (.error e) analyze_game update_model,
   rfl,
   process_finished_game_fst st result (.error e) analyze_game update_model,
   fun save_game =>
     process_finished_game_fst st result save_game analyze_game update_model⟩

/-! ## C9 -/

/-- C9. get_win_rate returns 0 when games_played is 0 and the exact
ratio of wins to games_played otherwise; being a total function of the
counters, it raises no division error for any counter state. -/
theorem c9_win_rate (w l d : Nat) (st : BotStats) (h : st.games_played ≠ 0) :
    get_win_rate ⟨0, w, l, d⟩ = 0
    ∧ get_win_rate st = (st.wins : Rat) / (st.games_played : Rat)
    ∧ get_win_rate st * (st.games_played : Rat) = (st.wins : Rat) := by
  refine ⟨rfl, ?_, ?_⟩
  · simp [get_win_rate, h]
  · have hq : ((st.games_played : Rat)) ≠ 0 := by
      exact_mod_cast h
    simp [get_win_rate, h]

/-- C9 witness: the theorem applied to the zero state and to a state
with 2 games and 1 win. -/
theorem c9_win_rate_witness :
    get_win_rate ⟨0, 0, 0, 0⟩ = 0
    ∧ get_win_rate ⟨2, 1, 0, 1⟩ = ((1 : Nat) : Rat) / ((2 : Nat) : Rat)
    ∧ get_win_rate ⟨2, 1, 0, 1⟩ * ((2 : Nat) : Rat) = ((1 : Nat) : Rat) :=
  c9_win_rate 0 0 0 ⟨2, 1, 0, 1⟩ (by decide)

/-! ## C10 -/

/-- C10. Every invocation of the finished-game processing increments
games_played by exactly 1 and exactly one of wins, losses and draws by
exactly 1, with any result other than win or loss counted as a draw,
so the invariant wins + losses + draws = games_played is preserved. -/
theorem c10_counter_invariant (st : BotStats) (result : String)
    (save_game : Except PyErr Unit) (analyze_game : Except PyErr Nat)
    (update_model : Except PyErr Unit) :
    (process_finished_game st result save_game analyze_game update_model).1.games_played
      = st.games_played + 1
    ∧ (result = "win" →
      (process_finished_game st result save_game analyze_game update_model).1
        = ⟨st.games_played + 1, st.wins + 1, st.losses, st.draws⟩)
    ∧ (result = "loss" →
      (process_finished_game st result save_game analyze_game update_model).1
        = ⟨st.games_played + 1, st.wins, st.losses + 1, st.draws⟩)
    ∧ (result ≠ "win" → result ≠ "loss" →
      (process_finished_game st result save_game analyze_game update_model).1
        = ⟨st.games_played + 1, st.wins, st.losses, st.draws + 1⟩)
    ∧ (st.wins + st.losses + st.draws = st.games_played →
      (process_finished_game st result save_game analyze_game update_model).1.wins
        + (process_finished_game st result save_game analyze_game update_model).1.losses
        + (process_finished_game st result save_game analyze_game update_model).1.draws
        = (process_finished_game st result save_game analyze_game update_model).1.games_played) := by
  have hfst := process_finished_game_fst st result save_game analyze_game update_model
  obtain ⟨hwin, hloss, hdraw⟩ := update_stats_cases st result
  rw [hfst]
  have hgp : (update_stats st result).games_played = st.games_played + 1 := by
    by_cases hw : result = "win"
    · rw [hwin hw]
    · by_cases hl : result = "loss"
      · rw [hloss hl]
      · rw [hdraw hw hl]
  refine ⟨hgp, hwin, hloss, hdraw, ?_⟩
  intro hinv
  by_cases hw : result = "win"
  · rw [hwin hw]; simp; omega
  · by_cases hl : result = "loss"
    · rw [hloss hl]; simp; omega
    · rw [hdraw hw hl]; simp; omega

/-- C10 witness: the theorem applied to the zero state with result win:
all four counters after processing. -/
theorem c10_counter_invariant_witness :
    (process_finished_game ⟨0, 0, 0, 0⟩ "win" (.ok ()) (.ok 0) (.ok ())).1
      = ⟨1, 1, 0, 0⟩ :=
  (c10_counter_invariant ⟨0, 0, 0, 0⟩ "win" (.ok ()) (.ok 0) (.ok ())).2.1 rfl

end SophieChess
